import Mathlib

/-!
Verification of the IGC2FDR track conversion pipeline.

The Python sources (`igc_utils.py`, `igc_parser.py`) are shallowly embedded
over `ℚ`: Python floats are idealized as rationals, Python's float `%` as
`a - b * ⌊a / b⌋` (result carries the divisor's sign, as in CPython), and
`round(x, n)` as exact decimal round-half-to-even.  The transcendental
primitives used by the code (`math.sin`, `math.cos`, `math.atan2`,
`math.sqrt`, `math.degrees`, `math.radians`, and the constant
`math.pi / 180`) are abstracted into a record `TrigOps` of rational-valued
operations; every theorem about code that calls them is proved for all
instantiations, and concrete computable instantiations are used to evaluate
the definitions on sample inputs.
-/

namespace IGC

/-- Python's float modulo: `a % b = a - b * floor(a / b)`; the result has the
sign of `b`. -/
def pymod (a b : ℚ) : ℚ := a - b * ⌊a / b⌋

/-- Round a rational to the nearest integer, ties to even
(CPython's `round` on floats, idealized to exact arithmetic). -/
def roundHalfEven (q : ℚ) : ℤ :=
  let f := ⌊q⌋
  let r := q - f
  if r < 1 / 2 then f
  else if r > 1 / 2 then f + 1
  else if Even f then f else f + 1

/-- Python's `round(q, n)` for `n` decimal places. -/
def pyRoundTo (n : ℕ) (q : ℚ) : ℚ := (roundHalfEven (q * 10 ^ n) : ℚ) / 10 ^ n

/-- `round(q, 3)`, the rounding used for attitude values in `igc_parser.py`. -/
def pyRound3 (q : ℚ) : ℚ := pyRoundTo 3 q

/- Constants from `igc_constants.py`. -/

def DEGREES_IN_CIRCLE : ℚ := 360
def MAX_ATTITUDE_ANGLE : ℚ := 180
def EARTH_RADIUS_METERS : ℚ := 6371000
def FEET_PER_METER : ℚ := 3.28084
def KNOTS_PER_MPS : ℚ := 1.94384
def EARTH_GRAVITY : ℚ := 9.81
def SECONDS_PER_MINUTE : ℚ := 60
def DEFAULT_ROLL_FACTOR : ℚ := 0.6
def DEFAULT_PITCH_FACTOR : ℚ := 0.8
def DEFAULT_SMOOTHING_FACTOR : ℚ := 0.3

/-- Abstraction of the `math` primitives used by the sources.
`radPerDeg` stands for the float constant `RADIANS_PER_DEGREE = math.pi / 180`. -/
structure TrigOps where
  sin : ℚ → ℚ
  cos : ℚ → ℚ
  atan2 : ℚ → ℚ → ℚ
  sqrt : ℚ → ℚ
  degrees : ℚ → ℚ
  radians : ℚ → ℚ
  radPerDeg : ℚ

/-- `igc_utils.wrapHeading`: normalize heading to 0-360 degrees. -/
def wrapHeading (degrees : ℚ) : ℚ := pymod degrees DEGREES_IN_CIRCLE

/-- `igc_utils.wrapAttitude`: normalize pitch/roll to -180 to +180 degrees. -/
def wrapAttitude (degrees : ℚ) : ℚ :=
  let m := if degrees ≥ 0 then DEGREES_IN_CIRCLE else -DEGREES_IN_CIRCLE
  let d := pymod degrees m
  if d > MAX_ATTITUDE_ANGLE then d - DEGREES_IN_CIRCLE
  else if d < -MAX_ATTITUDE_ANGLE then d + DEGREES_IN_CIRCLE
  else d

/-- `igc_utils.calculateDistance`: haversine great-circle distance in meters. -/
def calculateDistance (ops : TrigOps) (lat1 lon1 lat2 lon2 : ℚ) : ℚ :=
  let lat1_rad := ops.radians lat1
  let lon1_rad := ops.radians lon1
  let lat2_rad := ops.radians lat2
  let lon2_rad := ops.radians lon2
  let dlon := lon2_rad - lon1_rad
  let dlat := lat2_rad - lat1_rad
  let a := ops.sin (dlat / 2) ^ 2 + ops.cos lat1_rad * ops.cos lat2_rad * ops.sin (dlon / 2) ^ 2
  let c := 2 * ops.atan2 (ops.sqrt a) (ops.sqrt (1 - a))
  EARTH_RADIUS_METERS * c

/-- The `y` component of the bearing vector computed inside
`calculateHeading`. -/
def bearingY (ops : TrigOps) (lat1 lon1 lat2 lon2 : ℚ) : ℚ :=
  ops.sin (ops.radians lon2 - ops.radians lon1) * ops.cos (ops.radians lat2)

/-- The `x` component of the bearing vector computed inside
`calculateHeading`. -/
def bearingX (ops : TrigOps) (lat1 lon1 lat2 lon2 : ℚ) : ℚ :=
  ops.cos (ops.radians lat1) * ops.sin (ops.radians lat2) -
    ops.sin (ops.radians lat1) * ops.cos (ops.radians lat2) *
      ops.cos (ops.radians lon2 - ops.radians lon1)

/-- `igc_utils.calculateHeading`: initial bearing between two points, with a
fallback for identical/very close points (`fallback_heading = none` models the
Python default `None`). -/
def calculateHeading (ops : TrigOps) (lat1 lon1 lat2 lon2 : ℚ)
    (fallback_heading : Option ℚ) : ℚ :=
  let distance := calculateDistance ops lat1 lon1 lat2 lon2
  if distance < 1 then
    match fallback_heading with
    | some fb => fb
    | none => 360
  else
    let y := bearingY ops lat1 lon1 lat2 lon2
    let x := bearingX ops lat1 lon1 lat2 lon2
    if |x| < 1 / 10 ^ 10 ∧ |y| < 1 / 10 ^ 10 then
      match fallback_heading with
      | some fb => fb
      | none => 360
    else
      let heading_rad := ops.atan2 y x
      let heading_deg := pymod (ops.degrees heading_rad + DEGREES_IN_CIRCLE) DEGREES_IN_CIRCLE
      if heading_deg < 1 / 1000 then 360
      else heading_deg

/-- `igc_model.FdrTrackPoint`: a track point (time in whole seconds,
position and attitude as rationals).  The `drefs` dictionary is modelled
separately (see `evalDrefs`). -/
structure FdrTrackPoint where
  TIME : ℤ := 0
  LONG : ℚ := 0
  LAT : ℚ := 0
  ALTMSL : ℚ := 0
  HEADING : ℚ := 0
  PITCH : ℚ := 0
  ROLL : ℚ := 0
deriving Repr, DecidableEq

/-- The tail-configuration dictionary handed to `apply_smoothing`
(`TailSettings.to_dict` in `igc_config.py`).  `rollfactor`/`pitchfactor` are
`some q` exactly when the key is present and `float(...)` succeeds. -/
structure TailConfig where
  headingtrim : ℚ
  pitchtrim : ℚ
  rolltrim : ℚ
  rollfactor : Option ℚ := none
  pitchfactor : Option ℚ := none
deriving Repr, DecidableEq

/-- The heading-smoothing step of `AttitudeCalculator.apply_smoothing`
(source lines 405-425): shortest-path difference, blend with the smoothing
factor, single-step renormalization into 0-360. -/
def smoothHeading (current_heading prev_heading : ℚ) : ℚ :=
  let smoothing := DEFAULT_SMOOTHING_FACTOR
  let heading_diff := current_heading - prev_heading
  let heading_diff :=
    if heading_diff > 180 then heading_diff - 360
    else if heading_diff < -180 then heading_diff + 360
    else heading_diff
  let smoothed_heading := prev_heading + heading_diff * (1 - smoothing)
  if smoothed_heading < 0 then smoothed_heading + 360
  else if smoothed_heading ≥ 360 then smoothed_heading - 360
  else smoothed_heading

/-- `AttitudeCalculator.apply_smoothing`: scaling, smoothing against the
previous point, the zero-heading fallback, and the trim block.  As in the
source, the pitch/roll trim assignments sit inside the
`if heading_change > 45` discontinuity-diagnostic branch. -/
def apply_smoothing (current_point : FdrTrackPoint) (prev_point : Option FdrTrackPoint)
    (tail_config : TailConfig) : FdrTrackPoint :=
  let roll_factor := tail_config.rollfactor.getD DEFAULT_ROLL_FACTOR
  let pitch_factor := tail_config.pitchfactor.getD DEFAULT_PITCH_FACTOR
  let p1 := { current_point with
              ROLL := current_point.ROLL * roll_factor,
              PITCH := current_point.PITCH * pitch_factor }
  let p2 :=
    match prev_point with
    | none => p1
    | some pv =>
      let smoothing := DEFAULT_SMOOTHING_FACTOR
      { p1 with
        HEADING := smoothHeading p1.HEADING pv.HEADING,
        PITCH := pv.PITCH * smoothing + p1.PITCH * (1 - smoothing),
        ROLL := pv.ROLL * smoothing + p1.ROLL * (1 - smoothing) }
  let p3 :=
    if p2.HEADING = 0 then
      match prev_point with
      | some pv => if pv.HEADING ≠ 0 then { p2 with HEADING := pv.HEADING }
                   else { p2 with HEADING := 0 }
      | none => { p2 with HEADING := 0 }
    else p2
  let original_heading := p3.HEADING
  let p4 := { p3 with HEADING := pyRound3 (wrapHeading (p3.HEADING + tail_config.headingtrim)) }
  if original_heading > 0 then
    let heading_change := |p4.HEADING - original_heading|
    let heading_change := if heading_change > 180 then 360 - heading_change else heading_change
    if heading_change > 45 then
      { p4 with
        PITCH := pyRound3 (wrapAttitude (p4.PITCH + tail_config.pitchtrim)),
        ROLL := pyRound3 (wrapAttitude (p4.ROLL + tail_config.rolltrim)) }
    else p4
  else p4

/-- The `while interpolated < 0: interpolated += 360` loop of
`TrackBuilder._interpolate_heading`. -/
def addLoop (q : ℚ) : ℚ :=
  if h : q < 0 then addLoop (q + 360) else q
termination_by (⌈-q / 360⌉).toNat
decreasing_by
  have h0 : (0 : ℚ) < -q / 360 := by
    have : (0 : ℚ) < -q := by linarith
    positivity
  have h1 : (1 : ℤ) ≤ ⌈-q / 360⌉ := by
    exact_mod_cast Int.one_le_ceil_iff.mpr h0
  have h2 : ⌈-(q + 360) / 360⌉ = ⌈-q / 360⌉ - 1 := by
    have : -(q + 360) / 360 = -q / 360 - 1 := by ring
    rw [this, Int.ceil_sub_one]
  rw [h2]
  omega

/-- The `while interpolated >= 360: interpolated -= 360` loop of
`TrackBuilder._interpolate_heading`. -/
def subLoop (q : ℚ) : ℚ :=
  if h : q ≥ 360 then subLoop (q - 360) else q
termination_by (⌊q / 360⌋).toNat
decreasing_by
  have h1 : (1 : ℤ) ≤ ⌊q / 360⌋ := by
    have : (1 : ℚ) ≤ q / 360 := by
      rw [le_div_iff₀ (by norm_num : (0:ℚ) < 360)]
      linarith
    exact_mod_cast Int.le_floor.mpr (by exact_mod_cast this)
  have h2 : ⌊(q - 360) / 360⌋ = ⌊q / 360⌋ - 1 := by
    have : (q - 360) / 360 = q / 360 - 1 := by ring
    rw [this, Int.floor_sub_one]
  rw [h2]
  omega

/-- `TrackBuilder._interpolate_heading`: shortest-path heading interpolation
with while-loop renormalization into 0-360. -/
def interpolate_heading (start_heading end_heading factor : ℚ) : ℚ :=
  let diff := end_heading - start_heading
  let diff :=
    if diff > 180 then diff - 360
    else if diff < -180 then diff + 360
    else diff
  let interpolated := start_heading + diff * factor
  subLoop (addLoop interpolated)

/-- `TrackBuilder._fill_time_gap`: interpolated points for each missing
second strictly between `start_point` and `end_point`, `gap_seconds` being
`int(time_diff)` (time deltas of whole-second IGC fixes are integral).
Mirrors the source's pre-computation of `end_point.HEADING` when it is 0. -/
def fill_time_gap (ops : TrigOps) (start_point end_point : FdrTrackPoint)
    (gap_seconds : ℕ) : List FdrTrackPoint :=
  if gap_seconds > 10 then []
  else
    let endHeading :=
      if end_point.HEADING = 0 then
        calculateHeading ops start_point.LAT start_point.LONG
          end_point.LAT end_point.LONG none
      else end_point.HEADING
    (List.range' 1 (gap_seconds - 1)).map fun (i : ℕ) =>
      let factor : ℚ := (i : ℚ) / (gap_seconds : ℚ)
      { TIME := start_point.TIME + (i : ℤ),
        LAT := start_point.LAT + (end_point.LAT - start_point.LAT) * factor,
        LONG := start_point.LONG + (end_point.LONG - start_point.LONG) * factor,
        ALTMSL := start_point.ALTMSL + (end_point.ALTMSL - start_point.ALTMSL) * factor,
        HEADING := interpolate_heading start_point.HEADING endHeading factor,
        PITCH := start_point.PITCH + (end_point.PITCH - start_point.PITCH) * factor,
        ROLL := start_point.ROLL + (end_point.ROLL - start_point.ROLL) * factor }

/-- One iteration of the best-candidate loop in
`TrackBuilder._select_best_duplicate_point`.  The accumulator `none` stands
for `best_point = None, best_distance = inf`; a first candidate always
replaces it since haversine distances are finite. -/
def selStep (ops : TrigOps) (pv : FdrTrackPoint)
    (acc : Option (FdrTrackPoint × ℚ)) (candidate : FdrTrackPoint) :
    Option (FdrTrackPoint × ℚ) :=
  let distance := calculateDistance ops pv.LAT pv.LONG candidate.LAT candidate.LONG
  match acc with
  | none => some (candidate, distance)
  | some (best, best_distance) =>
    if distance < best_distance then some (candidate, distance)
    else some (best, best_distance)

/-- `TrackBuilder._select_best_duplicate_point`: among samples sharing a
timestamp, keep the one closest to the previous accepted point. -/
def select_best_duplicate_point (ops : TrigOps) (candidates : List FdrTrackPoint)
    (prev_point : Option FdrTrackPoint) : Option FdrTrackPoint :=
  if candidates.length = 1 then candidates.head?
  else
    match prev_point with
    | none => candidates.head?
    | some pv => (candidates.foldl (selStep ops pv) none).map Prod.fst

/-- The dictionary returned by `AttitudeCalculator.calculate_derived_values`. -/
structure DerivedValues where
  Speed : ℚ := 0
  Course : ℚ := 0
  VerticalSpeed : ℚ := 0
  Pitch : ℚ := 0
  Bank : ℚ := 0
deriving Repr, DecidableEq

/-- `AttitudeCalculator.calculate_derived_values`: speed, course, vertical
speed, pitch and bank from two consecutive points.  Returns the updated
current point (the source mutates it in place) together with the dictionary. -/
def calculate_derived_values (ops : TrigOps) (current_point prev_point : FdrTrackPoint)
    (time_diff : ℚ) : FdrTrackPoint × DerivedValues :=
  if time_diff ≤ 0 then (current_point, {})
  else
    let dist := calculateDistance ops prev_point.LAT prev_point.LONG
      current_point.LAT current_point.LONG
    let speed_kts := dist / time_diff * KNOTS_PER_MPS
    let heading := calculateHeading ops prev_point.LAT prev_point.LONG
      current_point.LAT current_point.LONG (some prev_point.HEADING)
    let c1 := { current_point with HEADING := pyRound3 heading }
    let alt_change := current_point.ALTMSL - prev_point.ALTMSL
    let vert_speed := alt_change / time_diff * SECONDS_PER_MINUTE
    let pitch_angle :=
      if dist > 0 then ops.degrees (ops.atan2 alt_change (dist * FEET_PER_METER)) else 0
    let c2 := if dist > 0 then { c1 with PITCH := pyRound3 pitch_angle } else c1
    let heading_change := |c1.HEADING - prev_point.HEADING|
    let heading_change := if heading_change > 180 then 360 - heading_change else heading_change
    if heading_change > 0 then
      let turn_rate := heading_change / time_diff
      let speed_ms := speed_kts * 0.51444
      let roll0 := ops.degrees (ops.atan2 (speed_ms * turn_rate * ops.radPerDeg) EARTH_GRAVITY)
      let heading_diff := pymod (c1.HEADING - prev_point.HEADING + 360) 360
      let roll_angle := if heading_diff > 180 then -roll0 else roll0
      ({ c2 with ROLL := pyRound3 roll_angle },
       { Speed := pyRoundTo 2 speed_kts, Course := heading,
         VerticalSpeed := pyRoundTo 2 vert_speed, Pitch := pitch_angle,
         Bank := roll_angle })
    else
      (c2,
       { Speed := pyRoundTo 2 speed_kts, Course := heading,
         VerticalSpeed := pyRoundTo 2 vert_speed, Pitch := pitch_angle,
         Bank := 0 })

/- B-record parsing (`IgcPositionParser`, `igc_parser.py`).  A raw line is a
list of characters; `none` models a raised `ValueError`/`IndexError`. -/

/-- Digits of a decimal numeral; `none` when a character is not a digit or
the string is empty (`int(...)` raises `ValueError`). -/
def parseDigits : List Char → Option ℕ
  | [] => none
  | cs => cs.foldl (fun acc c =>
      match acc with
      | none => none
      | some n => if c.isDigit then some (n * 10 + (c.toNat - 48)) else none)
      (some 0)

/-- Python `int(s)` on a field sliced from a record: optional sign followed
by digits. -/
def pyInt (s : List Char) : Option ℤ :=
  match s with
  | '-' :: rest => (parseDigits rest).map (fun n => -(n : ℤ))
  | '+' :: rest => (parseDigits rest).map (fun n => (n : ℤ))
  | _ => (parseDigits s).map (fun n => (n : ℤ))

/-- Python slice `line[a:b]` for nonnegative bounds. -/
def pySlice (line : List Char) (a b : ℕ) : List Char := (line.take b).drop a

/-- Python `line[i]`; `none` models `IndexError`. -/
def pyIndex (line : List Char) (i : ℕ) : Option Char := line.get? i

/-- Python `line.find(c, start)`: first index `≥ start` holding `c`, else -1. -/
def pyFindFrom (line : List Char) (c : Char) (start : ℕ) : ℤ :=
  match (line.drop start).findIdx? (· = c) with
  | some i => (start + i : ℕ)
  | none => -1

/-- `IgcPositionParser.parse_time`: seconds-of-day from `line[1:7]`;
out-of-range components make `datetime.replace` raise `ValueError`. -/
def parse_time (line : List Char) : Option ℤ :=
  match pyInt (pySlice line 1 3), pyInt (pySlice line 3 5), pyInt (pySlice line 5 7) with
  | some hour, some minute, some second =>
    if 0 ≤ hour ∧ hour ≤ 23 ∧ 0 ≤ minute ∧ minute ≤ 59 ∧ 0 ≤ second ∧ second ≤ 59 then
      some (hour * 3600 + minute * 60 + second)
    else none
  | _, _, _ => none

/-- `IgcPositionParser.parse_latitude`. -/
def parse_latitude (line : List Char) : Option ℚ :=
  match pyInt (pySlice line 7 9), pyInt (pySlice line 9 11),
        pyInt (pySlice line 11 14), pyIndex line 14 with
  | some lat_deg, some lat_min, some lat_fracRaw, some lat_dir =>
    let lat_frac : ℚ := (lat_fracRaw : ℚ) / 1000
    let latitude : ℚ := (lat_deg : ℚ) + ((lat_min : ℚ) + lat_frac) / 60
    some (if lat_dir = 'S' then -latitude else latitude)
  | _, _, _, _ => none

/-- `IgcPositionParser.parse_longitude`. -/
def parse_longitude (line : List Char) : Option ℚ :=
  match pyInt (pySlice line 15 18), pyInt (pySlice line 18 20),
        pyInt (pySlice line 20 23), pyIndex line 23 with
  | some lon_deg, some lon_min, some lon_fracRaw, some lon_dir =>
    let lon_frac : ℚ := (lon_fracRaw : ℚ) / 1000
    let longitude : ℚ := (lon_deg : ℚ) + ((lon_min : ℚ) + lon_frac) / 60
    some (if lon_dir = 'W' then -longitude else longitude)
  | _, _, _, _ => none

/-- `IgcPositionParser.parse_altitude`: `(pressure, gps)` altitudes.
`none` models a `ValueError` escaping the function (only the
pressure-altitude parse after the 'A' marker is unguarded); an invalid GPS
altitude falls back to the pressure altitude, and when no 'A' marker is found
a failing parse is caught and `(0, 0)` returned. -/
def parse_altitude (line : List Char) : Option (ℤ × ℤ) :=
  let a_pos := pyFindFrom line 'A' 23
  if a_pos > 0 then
    let ap := a_pos.toNat
    match pyInt (pySlice line (ap + 1) (ap + 6)) with
    | none => none
    | some alt_pressure =>
      if line.length ≥ ap + 11 then
        match pyInt (pySlice line (ap + 6) (ap + 11)) with
        | some alt_gps => some (alt_pressure, alt_gps)
        | none => some (alt_pressure, alt_pressure)
      else some (alt_pressure, alt_pressure)
  else
    match pyInt (pySlice line 25 30) with
    | none => some (0, 0)
    | some alt_pressure =>
      if line.length ≥ 36 then
        match pyInt (pySlice line 30 35) with
        | some alt_gps => some (alt_pressure, alt_gps)
        | none => some (alt_pressure, alt_pressure)
      else some (alt_pressure, alt_pressure)

/-- `IgcPositionParser.parse_position_record`: a full B record into a track
point; `none` models a raised `ValueError`/`IndexError`. -/
def parse_position_record (line : List Char) (timezone_offset : ℤ) :
    Option FdrTrackPoint :=
  match parse_time line, parse_latitude line, parse_longitude line,
        parse_altitude line with
  | some t, some lat, some lon, some alts =>
    some { TIME := t + timezone_offset,
           LAT := pyRoundTo 9 lat,
           LONG := pyRoundTo 9 lon,
           ALTMSL := pyRoundTo 4 ((alts.2 : ℚ) * FEET_PER_METER),
           HEADING := 0, PITCH := 0, ROLL := 0 }
  | _, _, _, _ => none

/-- The per-line admission step of the first pass of
`TrackBuilder.build_track_from_lines` (lines 622-646): empty/short or
non-'B' lines are ignored, parse errors are caught and the record skipped. -/
def accept_position_record (line : List Char) (timezone_offset : ℤ) :
    Option FdrTrackPoint :=
  if line.length < 35 ∨ line.head? ≠ some 'B' then none
  else parse_position_record line timezone_offset

/-- The records admitted by the first pass, in file order: a line that fails
admission contributes no track point and processing continues with the
next line. -/
def collect_position_records (lines : List (List Char)) (timezone_offset : ℤ) :
    List FdrTrackPoint :=
  lines.filterMap (fun line => accept_position_record line timezone_offset)

/- Derived-channel (DREF) evaluation, `build_track_from_lines` lines 786-796:
each configured channel's expression is evaluated for the point inside
`try/except`; `Except.error` models any raised exception. -/

/-- Value stored for one channel: the evaluated expression, or 0 when
evaluation raised. -/
def evalDref (result : Except Unit ℚ) : ℚ :=
  match result with
  | .ok v => v
  | .error _ => 0

/-- The per-point channel loop: every configured channel gets a value. -/
def evalDrefs (dref_sources : List (String × Except Unit ℚ)) : List (String × ℚ) :=
  dref_sources.map (fun nv => (nv.1, evalDref nv.2))

/-- The per-track loop: channels are evaluated point by point. -/
def evalTrackDrefs (points : List (List (String × Except Unit ℚ))) :
    List (List (String × ℚ)) :=
  points.map evalDrefs

/- Concrete `TrigOps` instantiations used to evaluate the embedded code on
sample inputs.  `trivOps` makes identical points land in the "too close"
branch of `calculateHeading`, exactly as real trigonometry does. -/

def trivOps : TrigOps :=
  { sin := fun _ => 0, cos := fun _ => 1, atan2 := fun _ _ => 0,
    sqrt := fun _ => 0, degrees := fun q => q, radians := fun q => q,
    radPerDeg := 0 }

/-- An instantiation whose haversine value is large, so `calculateHeading`
reaches the degenerate-bearing-vector branch. -/
def degenOps : TrigOps :=
  { sin := fun _ => 0, cos := fun _ => 0, atan2 := fun _ _ => 1,
    sqrt := fun _ => 1, degrees := fun q => q, radians := fun q => q,
    radPerDeg := 1 }

/- Sample inputs used to evaluate the embedded code. -/

def c1Config : TailConfig := { headingtrim := 0, pitchtrim := 5, rolltrim := 0 }

def c1Point : FdrTrackPoint := { HEADING := 90, PITCH := 10, ROLL := 0 }

def c2Start : FdrTrackPoint := { TIME := 100, LAT := 10, LONG := 20, ALTMSL := 1000, HEADING := 50 }

def c2End : FdrTrackPoint := { TIME := 102, LAT := 12, LONG := 24, ALTMSL := 1100, HEADING := 60 }

def c3P1 : FdrTrackPoint := { LAT := 1, LONG := 1 }

def c3P2 : FdrTrackPoint := { LAT := 2, LONG := 2 }

/-- A 35-character B record whose GPS-altitude field `XXXXX` fails integer
parsing while everything else is valid. -/
def c9BadLine : List Char := "B0950304648000N01228000EA01000XXXXX".toList

/-- A line too short to be a valid position record. -/
def c9ShortLine : List Char := "B123".toList

/-- A trig instantiation for the C7 witness: `atan2` projects its first
argument, `degrees` is the identity, so every quantity is a concrete
rational. -/
def wOps : TrigOps :=
  { sin := fun _ => 1, cos := fun _ => 1, atan2 := fun y _ => y,
    sqrt := fun q => q, degrees := fun q => q, radians := fun q => q,
    radPerDeg := 1 }

def c7Prev : FdrTrackPoint := { LAT := 0, LONG := 0, HEADING := 90 }

def c7Cur : FdrTrackPoint := { LAT := 1, LONG := 1 }

/- Arithmetic facts about `pymod`. -/

theorem pymod_eq_mul_fract (a b : ℚ) (hb : b ≠ 0) :
    pymod a b = b * Int.fract (a / b) := by
  unfold pymod Int.fract
  field_simp

theorem pymod_nonneg (a b : ℚ) (hb : 0 < b) : 0 ≤ pymod a b := by
  rw [pymod_eq_mul_fract a b hb.ne']
  exact mul_nonneg hb.le (Int.fract_nonneg _)

theorem pymod_lt (a b : ℚ) (hb : 0 < b) : pymod a b < b := by
  rw [pymod_eq_mul_fract a b hb.ne']
  calc b * Int.fract (a / b) < b * 1 :=
        (mul_lt_mul_left hb).mpr (Int.fract_lt_one _)
    _ = b := mul_one b

theorem pymod_nonpos (a b : ℚ) (hb : b < 0) : pymod a b ≤ 0 := by
  rw [pymod_eq_mul_fract a b hb.ne]
  exact mul_nonpos_of_nonpos_of_nonneg hb.le (Int.fract_nonneg _)

theorem pymod_gt (a b : ℚ) (hb : b < 0) : b < pymod a b := by
  rw [pymod_eq_mul_fract a b hb.ne]
  calc b = b * 1 := (mul_one b).symm
    _ < b * Int.fract (a / b) := by
        exact mul_lt_mul_of_neg_left (Int.fract_lt_one _) hb

theorem pymod_eq_self (a b : ℚ) (h0 : 0 ≤ a) (h1 : a < b) : pymod a b = a := by
  have hb : 0 < b := lt_of_le_of_lt h0 h1
  have hfloor : ⌊a / b⌋ = 0 := by
    rw [Int.floor_eq_zero_iff]
    constructor
    · exact div_nonneg h0 hb.le
    · rw [div_lt_one hb]; exact h1
  unfold pymod
  rw [hfloor]
  push_cast
  ring

theorem pymod_add_cycle (a b : ℚ) (hb : b ≠ 0) : pymod (a + b) b = pymod a b := by
  unfold pymod
  have : (a + b) / b = a / b + 1 := by field_simp
  rw [this, Int.floor_add_one]
  push_cast
  ring

/-- C1: the spec says the configured trim offsets are applied to all three
attitude angles unconditionally, the 45-degree deviation check being only a
diagnostic.  In `apply_smoothing` the pitch/roll trim assignments sit inside
the `heading_change > 45` diagnostic branch, so at a point with heading 90,
pitch 10, heading trim 0 and pitch trim 5 (no discontinuity), pitch keeps the
scaled value `10 * 0.8 = 8` and the mandated trimmed value
`wrapAttitude (8 + 5) = 13` is never produced. -/
theorem c1_pitch_trim_skipped_without_discontinuity :
    (apply_smoothing c1Point none c1Config).PITCH = 8 ∧
    pyRound3 (wrapAttitude ((apply_smoothing c1Point none c1Config).PITCH
      + c1Config.pitchtrim)) = 13 := by
  have h : apply_smoothing c1Point none c1Config = { HEADING := 90, PITCH := 8, ROLL := 0 } := by
    unfold apply_smoothing
    dsimp only [c1Point, c1Config]
    norm_num [smoothHeading, wrapHeading, pymod, pyRound3, pyRoundTo, roundHalfEven,
      DEGREES_IN_CIRCLE, MAX_ATTITUDE_ANGLE, DEFAULT_ROLL_FACTOR, DEFAULT_PITCH_FACTOR,
      DEFAULT_SMOOTHING_FACTOR]
  rw [h]
  constructor
  · rfl
  · norm_num [c1Config, pyRound3, pyRoundTo, roundHalfEven, wrapAttitude, pymod,
      DEGREES_IN_CIRCLE, MAX_ATTITUDE_ANGLE]

/-- C6 counterexample: `wrapAttitude (-180) = -180`, which is outside the
claimed interval `(-180, 180]` (the repository's own tests assert this
value), and `calculateHeading` on coincident points with no fallback returns
the sentinel 360, which is outside the claimed `[0, 360)`. -/
theorem c6_closed_endpoint_and_sentinel :
    wrapAttitude (-180) = -180 ∧ calculateHeading trivOps 1 1 1 1 none = 360 := by
  constructor
  · norm_num [wrapAttitude, pymod, DEGREES_IN_CIRCLE, MAX_ATTITUDE_ANGLE]
  · norm_num [calculateHeading, calculateDistance, trivOps, EARTH_RADIUS_METERS]

/-- C6 (amended): `wrapHeading` always returns a value in `[0, 360)`;
`wrapAttitude` always returns a value in the closed interval `[-180, 180]`
(both endpoints attainable); and `calculateHeading` either returns the
supplied fallback unchanged or a value in `(0, 360]` - the 360 sentinel
included, never a spurious 0. -/
theorem c6_wrap_ranges :
    (∀ q : ℚ, 0 ≤ wrapHeading q ∧ wrapHeading q < 360) ∧
    (∀ q : ℚ, -180 ≤ wrapAttitude q ∧ wrapAttitude q ≤ 180) ∧
    (∀ (ops : TrigOps) (lat1 lon1 lat2 lon2 fbv : ℚ),
      calculateHeading ops lat1 lon1 lat2 lon2 (some fbv) = fbv ∨
      (0 < calculateHeading ops lat1 lon1 lat2 lon2 (some fbv) ∧
       calculateHeading ops lat1 lon1 lat2 lon2 (some fbv) ≤ 360)) ∧
    (∀ (ops : TrigOps) (lat1 lon1 lat2 lon2 : ℚ),
      0 < calculateHeading ops lat1 lon1 lat2 lon2 none ∧
      calculateHeading ops lat1 lon1 lat2 lon2 none ≤ 360) := by
  refine ⟨?_, ?_, ?_, ?_⟩
  · intro q
    exact ⟨pymod_nonneg q 360 (by norm_num), pymod_lt q 360 (by norm_num)⟩
  · intro q
    unfold wrapAttitude DEGREES_IN_CIRCLE MAX_ATTITUDE_ANGLE
    by_cases h : q ≥ 0
    · simp only [h, if_true]
      have h0 := pymod_nonneg q 360 (by norm_num)
      have h1 := pymod_lt q 360 (by norm_num)
      split_ifs <;> constructor <;> linarith
    · simp only [h, if_false]
      have h0 := pymod_nonpos q (-360) (by norm_num)
      have h1 := pymod_gt q (-360) (by norm_num)
      split_ifs <;> constructor <;> linarith
  · intro ops lat1 lon1 lat2 lon2 fbv
    unfold calculateHeading
    dsimp only
    split_ifs with hdist hdegen hsmall
    · exact Or.inl rfl
    · exact Or.inl rfl
    · exact Or.inr ⟨by norm_num, by norm_num⟩
    · refine Or.inr ⟨lt_of_lt_of_le (by norm_num) (not_lt.mp hsmall), ?_⟩
      exact (pymod_lt _ _ (by norm_num [DEGREES_IN_CIRCLE])).le.trans
        (by norm_num [DEGREES_IN_CIRCLE])
  · intro ops lat1 lon1 lat2 lon2
    unfold calculateHeading
    dsimp only
    split_ifs with hdist hdegen hsmall
    · exact ⟨by norm_num, by norm_num⟩
    · exact ⟨by norm_num, by norm_num⟩
    · exact ⟨by norm_num, by norm_num⟩
    · refine ⟨lt_of_lt_of_le (by norm_num) (not_lt.mp hsmall), ?_⟩
      exact (pymod_lt _ _ (by norm_num [DEGREES_IN_CIRCLE])).le.trans
        (by norm_num [DEGREES_IN_CIRCLE])

/- Closed forms of the renormalization while-loops of
`_interpolate_heading`. -/

theorem addLoop_of_nonneg {q : ℚ} (h : 0 ≤ q) : addLoop q = q := by
  rw [addLoop, dif_neg (not_lt.mpr h)]

theorem addLoop_step {q : ℚ} (h : q < 0) : addLoop q = addLoop (q + 360) := by
  conv_lhs => rw [addLoop]
  rw [dif_pos h]

theorem subLoop_of_lt {q : ℚ} (h : q < 360) : subLoop q = q := by
  rw [subLoop, dif_neg (not_le.mpr h)]

theorem subLoop_step {q : ℚ} (h : 360 ≤ q) : subLoop q = subLoop (q - 360) := by
  conv_lhs => rw [subLoop]
  rw [dif_pos h]

/-- On `(-360, 720)` - the only range `_interpolate_heading` ever feeds it -
the loop pair computes exactly the Python modulo by 360. -/
theorem normloop_eq_pymod {v : ℚ} (h1 : -360 < v) (h2 : v < 720) :
    subLoop (addLoop v) = pymod v 360 := by
  rcases lt_or_le v 0 with hneg | hpos
  · rw [addLoop_step hneg, addLoop_of_nonneg (by linarith),
      subLoop_of_lt (by linarith), ← pymod_add_cycle v 360 (by norm_num),
      pymod_eq_self _ _ (by linarith) (by linarith)]
  · rcases lt_or_le v 360 with hlt | hge
    · rw [addLoop_of_nonneg hpos, subLoop_of_lt hlt, pymod_eq_self _ _ hpos hlt]
    · rw [addLoop_of_nonneg hpos, subLoop_step hge, subLoop_of_lt (by linarith)]
      have hcycle : pymod v 360 = pymod (v - 360) 360 := by
        have h := pymod_add_cycle (v - 360) 360 (by norm_num)
        rw [show v - 360 + 360 = v from by ring] at h
        exact h
      rw [hcycle, pymod_eq_self _ _ (by linarith) (by linarith)]

/-- Core estimate: for a wrapped difference of magnitude at most 180, a
start heading in `[0, 360)` and a factor in `[0, 1]`, the while-loops reduce
to `pymod _ 360`, whose value lies in `[0, 360)`. -/
theorem interp_core (s d f : ℚ) (hd : |d| ≤ 180) (hs0 : 0 ≤ s) (hs1 : s < 360)
    (hf0 : 0 ≤ f) (hf1 : f ≤ 1) :
    subLoop (addLoop (s + d * f)) = pymod (s + d * f) 360 ∧
    0 ≤ pymod (s + d * f) 360 ∧ pymod (s + d * f) 360 < 360 := by
  have hfabs : |f| ≤ 1 := by rw [abs_of_nonneg hf0]; exact hf1
  have habs : |d * f| ≤ 180 := by
    rw [abs_mul]
    calc |d| * |f| ≤ 180 * 1 := mul_le_mul hd hfabs (abs_nonneg f) (by norm_num)
      _ = 180 := by ring
  have hb := abs_le.mp habs
  exact ⟨normloop_eq_pymod (by linarith) (by linarith),
    pymod_nonneg _ _ (by norm_num), pymod_lt _ _ (by norm_num)⟩

/-- C4: for headings in `[0, 360)` and a factor in `[0, 1]`,
`_interpolate_heading` wraps the difference `end - start` into `[-180, 180]`
(the wrapped value differs from `end - start` by a multiple of 360), scales
it by the factor, and renormalizes into `[0, 360)`; concretely, interpolating
from 350 to 10 at factor 1/2 gives 0 (i.e. 360 mod 360), not 180. -/
theorem c4_interpolate_heading_shortest_path :
    (∀ s e f : ℚ, 0 ≤ s → s < 360 → 0 ≤ e → e < 360 → 0 ≤ f → f ≤ 1 →
      ∃ d : ℚ, (d = e - s ∨ d = e - s - 360 ∨ d = e - s + 360) ∧
        |d| ≤ 180 ∧
        interpolate_heading s e f = wrapHeading (s + d * f) ∧
        0 ≤ interpolate_heading s e f ∧ interpolate_heading s e f < 360) ∧
    interpolate_heading 350 10 (1 / 2) = 0 := by
  constructor
  · intro s e f hs0 hs1 he0 he1 hf0 hf1
    unfold interpolate_heading
    dsimp only
    split_ifs with hgt hlt
    · have hd : |e - s - 360| ≤ 180 := abs_le.mpr ⟨by linarith, by linarith⟩
      obtain ⟨heq, hge', hlt'⟩ := interp_core s (e - s - 360) f hd hs0 hs1 hf0 hf1
      exact ⟨e - s - 360, Or.inr (Or.inl rfl), hd,
        by rw [heq]; simp [wrapHeading, DEGREES_IN_CIRCLE],
        by rw [heq]; exact hge', by rw [heq]; exact hlt'⟩
    · have hd : |e - s + 360| ≤ 180 := abs_le.mpr ⟨by linarith, by linarith⟩
      obtain ⟨heq, hge', hlt'⟩ := interp_core s (e - s + 360) f hd hs0 hs1 hf0 hf1
      exact ⟨e - s + 360, Or.inr (Or.inr rfl), hd,
        by rw [heq]; simp [wrapHeading, DEGREES_IN_CIRCLE],
        by rw [heq]; exact hge', by rw [heq]; exact hlt'⟩
    · have hd : |e - s| ≤ 180 := abs_le.mpr ⟨by linarith, by linarith⟩
      obtain ⟨heq, hge', hlt'⟩ := interp_core s (e - s) f hd hs0 hs1 hf0 hf1
      exact ⟨e - s, Or.inl rfl, hd,
        by rw [heq]; simp [wrapHeading, DEGREES_IN_CIRCLE],
        by rw [heq]; exact hge', by rw [heq]; exact hlt'⟩
  · unfold interpolate_heading
    dsimp only
    rw [if_neg (by norm_num), if_pos (by norm_num),
      show (350 : ℚ) + (10 - 350 + 360) * (1 / 2) = 360 from by norm_num,
      addLoop_of_nonneg (by norm_num), subLoop_step (by norm_num),
      show (360 : ℚ) - 360 = 0 from by norm_num, subLoop_of_lt (by norm_num)]

/-- C5: whenever the two points are closer than 1 meter by the haversine
computation, `calculateHeading` returns exactly the supplied fallback, and
the fixed sentinel 360 (not 0) when no fallback is supplied; and the same
behaviour when the bearing vector is numerically degenerate
(both components below 1e-10 in magnitude). -/
theorem c5_close_points_fallback :
    ∀ (ops : TrigOps) (lat1 lon1 lat2 lon2 fbv : ℚ),
      (calculateDistance ops lat1 lon1 lat2 lon2 < 1 →
        calculateHeading ops lat1 lon1 lat2 lon2 (some fbv) = fbv ∧
        calculateHeading ops lat1 lon1 lat2 lon2 none = 360) ∧
      (|bearingX ops lat1 lon1 lat2 lon2| < 1 / 10 ^ 10 →
        |bearingY ops lat1 lon1 lat2 lon2| < 1 / 10 ^ 10 →
        calculateHeading ops lat1 lon1 lat2 lon2 (some fbv) = fbv ∧
        calculateHeading ops lat1 lon1 lat2 lon2 none = 360) := by
  intro ops lat1 lon1 lat2 lon2 fbv
  constructor
  · intro hclose
    unfold calculateHeading
    dsimp only
    rw [if_pos hclose, if_pos hclose]
    exact ⟨rfl, rfl⟩
  · intro hx hy
    by_cases hclose : calculateDistance ops lat1 lon1 lat2 lon2 < 1
    · unfold calculateHeading
      dsimp only
      rw [if_pos hclose, if_pos hclose]
      exact ⟨rfl, rfl⟩
    · unfold calculateHeading
      dsimp only
      rw [if_neg hclose, if_neg hclose, if_pos ⟨hx, hy⟩, if_pos ⟨hx, hy⟩]
      exact ⟨rfl, rfl⟩

/-- Witness for C5: coincident points under `trivOps` land in the
closer-than-1-meter branch; `degenOps` makes the distance large but the
bearing vector exactly zero, landing in the degenerate branch. -/
theorem c5_witness :
    (calculateHeading trivOps 1 1 1 1 (some 123) = 123 ∧
     calculateHeading trivOps 1 1 1 1 none = 360) ∧
    (calculateHeading degenOps 5 6 7 8 (some 42) = 42 ∧
     calculateHeading degenOps 5 6 7 8 none = 360) :=
  ⟨(c5_close_points_fallback trivOps 1 1 1 1 123).1
      (by norm_num [calculateDistance, trivOps, EARTH_RADIUS_METERS]),
   (c5_close_points_fallback degenOps 5 6 7 8 42).2
      (by norm_num [bearingX, degenOps]) (by norm_num [bearingY, degenOps])⟩

/-- C10: during `apply_smoothing` against a previous point with nonzero
heading, a current heading that is exactly 0 after the smoothing step is
treated as invalid: the previous point's heading replaces it, and the
heading trim is then applied to the previous heading, so an exact
due-north 0 never passes through unchanged in that situation. -/
theorem c10_zero_heading_replaced :
    ∀ (cur pv : FdrTrackPoint) (cfg : TailConfig),
      pv.HEADING ≠ 0 →
      smoothHeading cur.HEADING pv.HEADING = 0 →
      (apply_smoothing cur (some pv) cfg).HEADING =
        pyRound3 (wrapHeading (pv.HEADING + cfg.headingtrim)) := by
  intro cur pv cfg hnz hsm
  unfold apply_smoothing
  dsimp only
  rw [hsm]
  rw [if_pos rfl, if_pos hnz]
  dsimp only
  split_ifs <;> rfl

/-- Witness for C10: current and previous headings both 360 make the
smoothed heading renormalize to exactly 0; with heading trim 10 the output
heading is the trimmed previous heading. -/
theorem c10_witness :
    (apply_smoothing { HEADING := 360 } (some { HEADING := 360 })
        { headingtrim := 10, pitchtrim := 0, rolltrim := 0 }).HEADING =
      pyRound3 (wrapHeading ((360 : ℚ) + 10)) :=
  c10_zero_heading_replaced { HEADING := 360 } { HEADING := 360 }
    { headingtrim := 10, pitchtrim := 0, rolltrim := 0 }
    (by norm_num)
    (by norm_num [smoothHeading, DEFAULT_SMOOTHING_FACTOR])

/-- Witness for C4: concrete instantiation at start 350, end 10, factor
1/2, discharging the range hypotheses. -/
theorem c4_witness :
    ∃ d : ℚ, (d = 10 - 350 ∨ d = 10 - 350 - 360 ∨ d = 10 - 350 + 360) ∧
      |d| ≤ 180 ∧
      interpolate_heading 350 10 (1 / 2) = wrapHeading (350 + d * (1 / 2)) ∧
      0 ≤ interpolate_heading 350 10 (1 / 2) ∧
      interpolate_heading 350 10 (1 / 2) < 360 :=
  c4_interpolate_heading_shortest_path.1 350 10 (1 / 2) (by norm_num) (by norm_num)
    (by norm_num) (by norm_num) (by norm_num) (by norm_num)

/-- C8: a failing derived-channel evaluation yields 0 for exactly that
channel, leaves every other channel of the point (before and after it) and
every other point untouched, and the per-channel and per-point loops always
run to completion - a failure is never fatal. -/
theorem c8_dref_failure_isolated :
    (∀ (pre post : List (String × Except Unit ℚ)) (n : String),
      evalDrefs (pre ++ (n, Except.error ()) :: post) =
        evalDrefs pre ++ (n, 0) :: evalDrefs post) ∧
    (∀ sources : List (String × Except Unit ℚ),
      (evalDrefs sources).length = sources.length) ∧
    (∀ (ptsPre ptsPost : List (List (String × Except Unit ℚ)))
        (p : List (String × Except Unit ℚ)),
      evalTrackDrefs (ptsPre ++ p :: ptsPost) =
        evalTrackDrefs ptsPre ++ evalDrefs p :: evalTrackDrefs ptsPost) := by
  refine ⟨?_, ?_, ?_⟩
  · intro pre post n
    simp [evalDrefs, evalDref]
  · intro sources
    simp [evalDrefs]
  · intro ptsPre ptsPost p
    simp [evalTrackDrefs]

/-- C2: for an integral time delta `d` between consecutive accepted samples
with `1.5 < d ≤ 10`, `_fill_time_gap` generates exactly one synthetic point
per missing integer second - `d - 1` points, the `i`-th at time
`start + i + 1` with latitude, longitude and altitude linearly interpolated
by the time fraction `(i+1)/d` (so for `d = 2` the single point sits at the
linear midpoint) - while for `d > 10` it generates no points at all. -/
theorem c2_gap_fill :
    ∀ (ops : TrigOps) (s e : FdrTrackPoint) (d : ℕ),
      ((3 : ℚ) / 2 < (d : ℚ) → (d : ℚ) ≤ 10 →
        (fill_time_gap ops s e d).length = d - 1 ∧
        ∀ (i : ℕ) (hi : i < (fill_time_gap ops s e d).length),
          ((fill_time_gap ops s e d)[i]).TIME = s.TIME + (i + 1) ∧
          ((fill_time_gap ops s e d)[i]).LAT =
            s.LAT + (e.LAT - s.LAT) * (((i : ℚ) + 1) / (d : ℚ)) ∧
          ((fill_time_gap ops s e d)[i]).LONG =
            s.LONG + (e.LONG - s.LONG) * (((i : ℚ) + 1) / (d : ℚ)) ∧
          ((fill_time_gap ops s e d)[i]).ALTMSL =
            s.ALTMSL + (e.ALTMSL - s.ALTMSL) * (((i : ℚ) + 1) / (d : ℚ))) ∧
      ((10 : ℚ) < (d : ℚ) → fill_time_gap ops s e d = []) := by
  intro ops s e d
  constructor
  · intro h32 h10
    have hd10 : d ≤ 10 := by exact_mod_cast h10
    have hnot : ¬ d > 10 := by omega
    unfold fill_time_gap
    rw [if_neg hnot]
    refine ⟨by simp, ?_⟩
    intro i hi
    simp only [List.length_map, List.length_range'] at hi
    simp only [List.getElem_map, List.getElem_range']
    refine ⟨?_, ?_, ?_, ?_⟩
    · push_cast
      ring
    · push_cast
      ring
    · push_cast
      ring
    · push_cast
      ring
  · intro h10
    have : 10 < d := by exact_mod_cast h10
    unfold fill_time_gap
    rw [if_pos (by omega)]

/-- Witness for C2: a 2-second gap produces exactly one synthetic point, and
an 11-second gap produces none. -/
theorem c2_witness :
    (fill_time_gap trivOps c2Start c2End 2).length = 2 - 1 ∧
    fill_time_gap trivOps c2Start c2End 11 = [] :=
  ⟨((c2_gap_fill trivOps c2Start c2End 2).1 (by norm_num) (by norm_num)).1,
   (c2_gap_fill trivOps c2Start c2End 11).2 (by norm_num)⟩

/-- Invariant of the best-candidate loop of
`_select_best_duplicate_point`: starting from a seed candidate, the fold
returns a candidate among the seed and the scanned list whose distance to
the previous point is minimal. -/
theorem selFold_spec (ops : TrigOps) (pv : FdrTrackPoint) :
    ∀ (l : List FdrTrackPoint) (b : FdrTrackPoint),
      ∃ b', l.foldl (selStep ops pv)
          (some (b, calculateDistance ops pv.LAT pv.LONG b.LAT b.LONG)) =
            some (b', calculateDistance ops pv.LAT pv.LONG b'.LAT b'.LONG) ∧
        (b' = b ∨ b' ∈ l) ∧
        calculateDistance ops pv.LAT pv.LONG b'.LAT b'.LONG ≤
          calculateDistance ops pv.LAT pv.LONG b.LAT b.LONG ∧
        ∀ c ∈ l, calculateDistance ops pv.LAT pv.LONG b'.LAT b'.LONG ≤
          calculateDistance ops pv.LAT pv.LONG c.LAT c.LONG := by
  intro l
  induction l with
  | nil =>
    intro b
    exact ⟨b, rfl, Or.inl rfl, le_refl _, by simp⟩
  | cons c cs ih =>
    intro b
    rw [List.foldl_cons]
    by_cases hlt : calculateDistance ops pv.LAT pv.LONG c.LAT c.LONG <
        calculateDistance ops pv.LAT pv.LONG b.LAT b.LONG
    · have hstep : selStep ops pv
          (some (b, calculateDistance ops pv.LAT pv.LONG b.LAT b.LONG)) c =
          some (c, calculateDistance ops pv.LAT pv.LONG c.LAT c.LONG) := by
        simp [selStep, hlt]
      rw [hstep]
      obtain ⟨b', heq, hmem, hle, hall⟩ := ih c
      refine ⟨b', heq, ?_, ?_, ?_⟩
      · rcases hmem with h | h
        · exact Or.inr (h ▸ List.mem_cons_self c cs)
        · exact Or.inr (List.mem_cons_of_mem c h)
      · linarith
      · intro x hx
        rcases List.mem_cons.mp hx with h | h
        · subst h
          exact hle
        · exact hall x h
    · have hstep : selStep ops pv
          (some (b, calculateDistance ops pv.LAT pv.LONG b.LAT b.LONG)) c =
          some (b, calculateDistance ops pv.LAT pv.LONG b.LAT b.LONG) := by
        simp [selStep, hlt]
      rw [hstep]
      obtain ⟨b', heq, hmem, hle, hall⟩ := ih b
      refine ⟨b', heq, ?_, hle, ?_⟩
      · rcases hmem with h | h
        · exact Or.inl h
        · exact Or.inr (List.mem_cons_of_mem c h)
      · intro x hx
        rcases List.mem_cons.mp hx with h | h
        · subst h
          linarith [not_lt.mp hlt]
        · exact hall x h

/-- C3: a size-1 group passes through unchanged; with no previous accepted
point the first candidate is selected; and with a previous point any
non-empty group is reduced to exactly one sample whose great-circle
distance to the previous point is minimal among the candidates. -/
theorem c3_select_best_duplicate :
    ∀ (ops : TrigOps) (candidates : List FdrTrackPoint) (pv : FdrTrackPoint),
      (∀ prev, candidates.length = 1 →
        select_best_duplicate_point ops candidates prev = candidates.head?) ∧
      (select_best_duplicate_point ops candidates none = candidates.head?) ∧
      (candidates ≠ [] →
        ∃ b, select_best_duplicate_point ops candidates (some pv) = some b ∧
          b ∈ candidates ∧
          ∀ c ∈ candidates,
            calculateDistance ops pv.LAT pv.LONG b.LAT b.LONG ≤
              calculateDistance ops pv.LAT pv.LONG c.LAT c.LONG) := by
  intro ops candidates pv
  refine ⟨?_, ?_, ?_⟩
  · intro prev hlen
    unfold select_best_duplicate_point
    rw [if_pos hlen]
  · unfold select_best_duplicate_point
    split_ifs with h
    · rfl
    · rfl
  · intro hne
    match candidates with
    | hd :: tl =>
      by_cases hlen : (hd :: tl).length = 1
      · have htl : tl = [] := by
          simpa using hlen
        subst htl
        unfold select_best_duplicate_point
        rw [if_pos hlen]
        refine ⟨hd, rfl, List.mem_singleton.mpr rfl, ?_⟩
        intro c hc
        rw [List.mem_singleton.mp hc]
      · unfold select_best_duplicate_point
        rw [if_neg hlen]
        dsimp only
        rw [List.foldl_cons]
        have hstep : selStep ops pv none hd =
            some (hd, calculateDistance ops pv.LAT pv.LONG hd.LAT hd.LONG) := rfl
        rw [hstep]
        obtain ⟨b', heq, hmem, hle, hall⟩ := selFold_spec ops pv tl hd
        rw [heq]
        refine ⟨b', rfl, ?_, ?_⟩
        · rcases hmem with h | h
          · exact h ▸ List.mem_cons_self hd tl
          · exact List.mem_cons_of_mem hd h
        · intro c hc
          rcases List.mem_cons.mp hc with h | h
          · subst h
            exact hle
          · exact hall c h

/-- Witness for C3: a singleton group passes through, and a 2-candidate
group with a previous point is reduced to one minimal-distance sample. -/
theorem c3_witness :
    (select_best_duplicate_point trivOps [c3P1] (some c3P2) = [c3P1].head?) ∧
    (∃ b, select_best_duplicate_point trivOps [c3P1, c3P2] (some c3P1) = some b ∧
      b ∈ [c3P1, c3P2] ∧
      ∀ c ∈ [c3P1, c3P2],
        calculateDistance trivOps c3P1.LAT c3P1.LONG b.LAT b.LONG ≤
          calculateDistance trivOps c3P1.LAT c3P1.LONG c.LAT c.LONG) :=
  ⟨(c3_select_best_duplicate trivOps [c3P1] c3P1).1 (some c3P2) (by norm_num),
   (c3_select_best_duplicate trivOps [c3P1, c3P2] c3P1).2.2 (by simp)⟩

/-- C9 counterexample: the record `c9BadLine` contains a field (the
GPS-altitude slice `line[30:35]`) that fails to parse as an integer, yet it
is not skipped: it is decoded with the pressure altitude (1000 m) substituted
for the unparseable GPS altitude. -/
theorem c9_bad_gps_altitude_still_decoded :
    pyInt (pySlice c9BadLine 30 35) = none ∧
    (accept_position_record c9BadLine 0).isSome = true ∧
    (accept_position_record c9BadLine 0).map FdrTrackPoint.ALTMSL =
      some (pyRoundTo 4 (((1000 : ℤ) : ℚ) * FEET_PER_METER)) := by
  refine ⟨rfl, rfl, rfl⟩

/-- C9 (amended): a position record shorter than 35 characters, or whose
time, latitude, longitude, or (when the 'A' marker is present) pressure
altitude fails to parse, contributes no track point and processing continues
with the remaining lines; but a record whose GPS-altitude field fails to
parse is kept, with the pressure altitude substituted for it. -/
theorem c9_skip_and_substitute :
    (∀ (lines1 lines2 : List (List Char)) (bad : List Char) (tz : ℤ),
      accept_position_record bad tz = none →
      collect_position_records (lines1 ++ bad :: lines2) tz =
        collect_position_records lines1 tz ++ collect_position_records lines2 tz) ∧
    (∀ (line : List Char) (tz : ℤ), line.length < 35 →
      accept_position_record line tz = none) ∧
    (∀ (line : List Char) (tz : ℤ), parse_time line = none →
      accept_position_record line tz = none) ∧
    (∀ (line : List Char) (tz : ℤ), parse_latitude line = none →
      accept_position_record line tz = none) ∧
    (∀ (line : List Char) (tz : ℤ), parse_longitude line = none →
      accept_position_record line tz = none) ∧
    (∀ (line : List Char) (tz : ℤ), parse_altitude line = none →
      accept_position_record line tz = none) ∧
    (∀ (line : List Char) (a : ℕ) (altp : ℤ), pyFindFrom line 'A' 23 = (a : ℤ) →
      0 < a →
      pyInt (pySlice line (a + 1) (a + 6)) = some altp →
      line.length ≥ a + 11 →
      pyInt (pySlice line (a + 6) (a + 11)) = none →
      parse_altitude line = some (altp, altp)) := by
  refine ⟨?_, ?_, ?_, ?_, ?_, ?_, ?_⟩
  · intro lines1 lines2 bad tz hbad
    simp [collect_position_records, List.filterMap_append, List.filterMap_cons, hbad]
  · intro line tz hshort
    unfold accept_position_record
    rw [if_pos (Or.inl hshort)]
  · intro line tz h
    unfold accept_position_record parse_position_record
    split_ifs with hskip
    · rfl
    · rw [h]
  · intro line tz h
    unfold accept_position_record parse_position_record
    split_ifs with hskip
    · rfl
    · rw [h]
      rcases parse_time line with _ | t <;> rfl
  · intro line tz h
    unfold accept_position_record parse_position_record
    split_ifs with hskip
    · rfl
    · rw [h]
      rcases parse_time line with _ | t <;> rcases parse_latitude line with _ | la <;> rfl
  · intro line tz h
    unfold accept_position_record parse_position_record
    split_ifs with hskip
    · rfl
    · rw [h]
      rcases parse_time line with _ | t <;> rcases parse_latitude line with _ | la <;>
        rcases parse_longitude line with _ | lo <;> rfl
  · intro line a altp hfind hpos hap hlen hgps
    unfold parse_altitude
    rw [hfind]
    rw [if_pos (by exact_mod_cast hpos)]
    have htoNat : ((a : ℤ)).toNat = a := Int.toNat_ofNat a
    rw [htoNat]
    dsimp only
    rw [hap]
    dsimp only
    rw [if_pos hlen, hgps]

/-- Witness for C9 (amended): the short line `B123` is skipped and
contributes nothing to the collected records. -/
theorem c9_witness :
    accept_position_record c9ShortLine 0 = none ∧
    collect_position_records ([] ++ c9ShortLine :: []) 0 =
      collect_position_records [] 0 ++ collect_position_records [] 0 := by
  have hshort : accept_position_record c9ShortLine 0 = none :=
    c9_skip_and_substitute.2.1 c9ShortLine 0 (by norm_num [c9ShortLine])
  exact ⟨hshort, c9_skip_and_substitute.1 [] [] c9ShortLine 0 hshort⟩

/-- Relation between the wraparound-aware smallest-angle heading change of
`calculate_derived_values` and the signed modular difference
`(current - previous + 360) % 360`, for headings within `[0, 360]`. -/
theorem headingChangeCases (prevH ch hdiff hcv : ℚ)
    (hp0 : 0 ≤ prevH) (hp1 : prevH ≤ 360) (hch0 : 0 ≤ ch) (hch1 : ch ≤ 360)
    (hhdiff : hdiff = pymod (ch - prevH + 360) 360)
    (hhcv : hcv = if |ch - prevH| > 180 then 360 - |ch - prevH| else |ch - prevH|) :
    (0 < hdiff → hdiff < 180 → hcv = hdiff) ∧
    (180 < hdiff → hdiff < 360 → hcv = 360 - hdiff) := by
  subst hhdiff hhcv
  rcases le_or_lt 0 (ch - prevH) with hd | hd
  · have hmod : pymod (ch - prevH + 360) 360 = pymod (ch - prevH) 360 :=
      pymod_add_cycle _ _ (by norm_num)
    rcases lt_or_eq_of_le (show ch - prevH ≤ 360 by linarith) with hlt | heq
    · rw [hmod, pymod_eq_self _ _ hd hlt]
      have habs : |ch - prevH| = ch - prevH := abs_of_nonneg hd
      constructor
      · intro h0 h180
        rw [if_neg (by rw [habs]; linarith), habs]
      · intro h180 h360
        rw [if_pos (by rw [habs]; linarith), habs]
    · have hzero : pymod (ch - prevH) 360 = 0 := by
        have h := pymod_add_cycle 0 360 (by norm_num)
        rw [zero_add] at h
        rw [heq, h, pymod_eq_self 0 360 le_rfl (by norm_num)]
      rw [hmod, hzero]
      exact ⟨fun h0 _ => absurd h0 (lt_irrefl 0), fun h180 _ => by linarith⟩
  · have hmod : pymod (ch - prevH + 360) 360 = ch - prevH + 360 :=
      pymod_eq_self _ _ (by linarith) (by linarith)
    rw [hmod]
    have habs : |ch - prevH| = -(ch - prevH) := abs_of_neg hd
    constructor
    · intro h0 h180
      rw [if_pos (by rw [habs]; linarith), habs]
      ring
    · intro h180 h360
      rw [if_neg (by rw [habs]; push_neg; linarith), habs]
      ring

/-- C7: whenever the elapsed time is positive, the previous heading and the
freshly computed current heading lie within `[0, 360]`, and the modular
heading difference `(current - previous + 360) % 360` is strictly between 0
and 180 (a right turn) or strictly between 180 and 360 (a left turn), the
`Bank` value produced by `calculate_derived_values` is respectively plus or
minus the degree value of `atan2(speed_mps * turnRate_rad_per_s, g)`, the
turn rate being the smallest-angle heading change divided by the elapsed
time. -/
theorem c7_roll_sign_and_magnitude :
    ∀ (ops : TrigOps) (cur prev : FdrTrackPoint) (td ch hdiff hc m : ℚ),
      0 < td →
      0 ≤ prev.HEADING → prev.HEADING ≤ 360 →
      ch = pyRound3 (calculateHeading ops prev.LAT prev.LONG cur.LAT cur.LONG
        (some prev.HEADING)) →
      0 ≤ ch → ch ≤ 360 →
      hdiff = pymod (ch - prev.HEADING + 360) 360 →
      hc = (if |ch - prev.HEADING| > 180 then 360 - |ch - prev.HEADING|
            else |ch - prev.HEADING|) →
      m = ops.degrees (ops.atan2
        (calculateDistance ops prev.LAT prev.LONG cur.LAT cur.LONG / td * KNOTS_PER_MPS *
          0.51444 * (hc / td) * ops.radPerDeg) EARTH_GRAVITY) →
      (0 < hdiff → hdiff < 180 →
        (calculate_derived_values ops cur prev td).2.Bank = m) ∧
      (180 < hdiff → hdiff < 360 →
        (calculate_derived_values ops cur prev td).2.Bank = -m) := by
  intro ops cur prev td ch hdiff hc m htd hp0 hp1 hch hch0 hch1 hhdiff hhc hm
  obtain ⟨caseA, caseB⟩ :=
    headingChangeCases prev.HEADING ch hdiff hc hp0 hp1 hch0 hch1 hhdiff hhc
  constructor
  · intro h0 h180
    have hchc : hc = hdiff := caseA h0 h180
    have hcpos : 0 < hc := by rw [hchc]; exact h0
    unfold calculate_derived_values
    rw [if_neg (not_le.mpr htd)]
    dsimp only
    rw [← hch, ← hhc, if_pos hcpos]
    dsimp only
    rw [← hhdiff, if_neg (by linarith : ¬ hdiff > 180), hm]
  · intro h180 h360
    have hchc : hc = 360 - hdiff := caseB h180 h360
    have hcpos : 0 < hc := by rw [hchc]; linarith
    unfold calculate_derived_values
    rw [if_neg (not_le.mpr htd)]
    dsimp only
    rw [← hch, ← hhc, if_pos hcpos]
    dsimp only
    rw [← hhdiff, if_pos (by linarith : hdiff > 180), hm]

/-- Witness for C7: under `wOps` the computed heading is 1, the previous is
90, so the modular difference is 271 (a left turn, smallest-angle change 89)
and the Bank is minus the claimed magnitude. -/
theorem c7_witness :
    (calculate_derived_values wOps c7Cur c7Prev 1).2.Bank =
      -(wOps.degrees (wOps.atan2
        (calculateDistance wOps c7Prev.LAT c7Prev.LONG c7Cur.LAT c7Cur.LONG / 1 *
          KNOTS_PER_MPS * 0.51444 * ((89 : ℚ) / 1) * wOps.radPerDeg) EARTH_GRAVITY)) :=
  (c7_roll_sign_and_magnitude wOps c7Cur c7Prev 1 1 271 89
      (wOps.degrees (wOps.atan2
        (calculateDistance wOps c7Prev.LAT c7Prev.LONG c7Cur.LAT c7Cur.LONG / 1 *
          KNOTS_PER_MPS * 0.51444 * ((89 : ℚ) / 1) * wOps.radPerDeg) EARTH_GRAVITY))
      (by norm_num)
      (by norm_num [c7Prev])
      (by norm_num [c7Prev])
      (by norm_num [c7Prev, c7Cur, wOps, calculateHeading, calculateDistance, bearingX,
        bearingY, pymod, pyRound3, pyRoundTo, roundHalfEven, EARTH_RADIUS_METERS,
        DEGREES_IN_CIRCLE])
      (by norm_num)
      (by norm_num)
      (by norm_num [c7Prev, pymod])
      (by norm_num [c7Prev])
      rfl).2
    (by norm_num) (by norm_num)

end IGC
